/-
Verification development for the data-oauth-integrator charm.

Shallow embedding of the charm's reconciliation loop (src/charm.py), its
relation-data contexts (src/models.py), the VM workload supervisor
(src/workload.py) and the FastAPI webhook claims pipeline (src/rest/app/...).

Modelling conventions:
- Relation data (the replicated key/value config store) is an association
  list of string pairs, read through lookup with empty-string default,
  mirroring Python dict.get(key, "").
- Machine-level effects (systemd, HTTP) appear as explicit inputs: the
  result of service_running and of the liveness GET are parameters of the
  health-check model; the value produced by secrets.token_urlsafe is a
  parameter of the reconcile model.
- Python values typed Any are never inspected by this code, so they are
  modelled as strings.
-/
import Mathlib

namespace OAuthIntegrator

/-! ### Config store: relation data as an association list -/

/-- Relation databag contents: string keys to string values. -/
abbrev Store := List (String × String)

/-- Reading a field: Python `relation_data.get(key, "")`. -/
def storeGet (d : Store) (k : String) : String :=
  (d.lookup k).getD ""

/-- Writing a field: Python dict assignment `relation_data[key] = value`
    (replace in place when the key is present, append otherwise). -/
def storeSet (d : Store) (k v : String) : Store :=
  if d.any (fun kv => kv.1 = k) then
    d.map (fun kv => if kv.1 = k then (k, v) else kv)
  else
    d ++ [(k, v)]

/-- Modelled from the spec: field deletion in the relation-data mapping
    returned by `data_interfaces.as_dict` (charm-library code that is not
    under src/). Spec 4.1: a `set` with an empty string value means
    `delete`, an idempotent removal, so deleting an absent field is a
    no-op rather than an error. -/
def storeDelete (d : Store) (k : String) : Store :=
  d.filter (fun kv => kv.1 ≠ k)

/-- models.py, RelationContext.update: values that are falsy (empty
    strings) select fields for deletion, the remaining items are written,
    then the selected fields are deleted. -/
def RelationContext.update (relation_data : Store) (items : List (String × String)) : Store :=
  let delete_fields := (items.filter (fun kv => kv.2 = "")).map (fun kv => kv.1)
  let update_content := items.filter (fun kv => kv.2 ≠ "")
  let written := update_content.foldl (fun acc kv => storeSet acc kv.1 kv.2) relation_data
  delete_fields.foldl (fun acc k => storeDelete acc k) written

/-! ### models.py: contexts and statuses -/

/-- ops.model statuses used by the charm, each carrying its message. -/
inductive StatusBase where
  | active (msg : String)
  | blocked (msg : String)
  | maintenance (msg : String)
deriving DecidableEq

/-- models.py: `ACTIVE = ActiveStatus()` (empty message). -/
def ACTIVE : StatusBase := StatusBase.active ""

/-- models.py, WithStatus.ready: true exactly when the status equals ACTIVE. -/
def WithStatus.ready (status : StatusBase) : Bool :=
  status = ACTIVE

/-- models.py, Context.status: unconditionally ActiveStatus. -/
def Context.status : StatusBase := ACTIVE

/-- Context.ready as inherited from WithStatus. -/
def Context.ready : Bool := WithStatus.ready Context.status

/-- Deployment substrate; constants.py fixes SUBSTRATE = vm. -/
inductive Substrate where
  | vm
  | k8s
deriving DecidableEq

/-- constants.py: SUBSTRATE = "vm". -/
def SUBSTRATE : Substrate := Substrate.vm

/-- constants.py: REST_PORT = 8080. -/
def REST_PORT : Nat := 8080

/-- models.py, UnitContext.internal_address, vm branch: the loop over
    the keys hostname, ip, private-address that keeps the first value
    that is non-empty and stops there. -/
def first_nonempty_addr (relation_data : Store) : List String → String
  | [] => ""
  | k :: ks =>
    let addr := storeGet relation_data k
    if addr ≠ "" then addr else first_nonempty_addr relation_data ks

/-- models.py, UnitContext.unit_id: the part of the unit name after the
    slash (the numeric unit index, kept as text here since it is only
    interpolated back into a string). -/
def UnitContext.unit_id (unit_name : String) : String :=
  (unit_name.splitOn "/").getD 1 ""

/-- models.py, UnitContext.internal_address: on vm, the first non-empty
    of hostname, ip, private-address from the unit databag; on k8s, the
    StatefulSet pod DNS name derived from the unit name. -/
def UnitContext.internal_address (substrate : Substrate) (relation_data : Store)
    (unit_name : String) : String :=
  let addr := ""
  let addr := if substrate = Substrate.vm then
      first_nonempty_addr relation_data ["hostname", "ip", "private-address"]
    else addr
  let addr := if substrate = Substrate.k8s then
      ((unit_name.splitOn "/").getD 0 "") ++ "-" ++ UnitContext.unit_id unit_name ++ "."
        ++ ((unit_name.splitOn "/").getD 0 "") ++ "-endpoints"
    else addr
  addr

/-- models.py, AppContext.API_KEY. -/
def AppContext.API_KEY : String := "api-key"

/-- models.py, AppContext.api_key getter: empty when the peer relation is
    absent, otherwise the api-key field of the app databag. -/
def AppContext.api_key (relation : Bool) (relation_data : Store) : String :=
  if !relation then "" else storeGet relation_data AppContext.API_KEY

/-! ### workload.py: the VM workload supervisor -/

/-- workload.py, VmWorkload.ready: unconditionally true. -/
def VmWorkload.ready : Bool := true

/-- workload.py, VmWorkload.systemd_config, line by line: the dedented
    unit file text produced by inspect.cleandoc over the f-string. -/
def VmWorkload.systemd_config_lines (charm_dir : String) (port : Nat) : List String :=
  ["[Unit]",
    "Description=OAuth Webhook",
    "Wants=network.target",
    "Requires=network.target",
    "",
    "[Service]",
    "WorkingDirectory=" ++ charm_dir ++ "/src/rest",
    "EnvironmentFile=-/etc/environment",
    "Environment=PORT=" ++ toString port,
    "ExecStart=" ++ charm_dir ++ "/venv/bin/python " ++ charm_dir ++ "/src/rest/entrypoint.py",
    "Restart=always",
    "Type=simple"]

/-- workload.py, VmWorkload.systemd_config: the unit file text. -/
def VmWorkload.systemd_config (charm_dir : String) (port : Nat) : String :=
  String.intercalate "\n" (VmWorkload.systemd_config_lines charm_dir port)

/-- workload.py, VmWorkload.health_url. -/
def VmWorkload.health_url (base_address : String) (port : Nat) : String :=
  "http://" ++ base_address ++ ":" ++ toString port ++ "/api/v1/healthcheck/liveness"

/-- Parameter names of VmWorkload.configure in workload.py besides self:
    it declares none. -/
def VmWorkload.configure_param_names : List String := []

/-- Python keyword-argument call semantics: passing a keyword argument
    whose name matches no parameter of the callee raises TypeError. -/
def call_with_keywords (param_names : List String) (keywords : List String) :
    Except String Unit :=
  if keywords.all (fun k => param_names.contains k) then Except.ok ()
  else Except.error "TypeError"

/-- One un-retried attempt of the VmWorkload.health_check body: if
    service_running is false, return false at once (no network call);
    otherwise the liveness GET either raises (the exception is re-raised)
    or yields a status code compared against 200. The first component of
    the input is the service_running answer, the second the GET outcome. -/
def health_check_attempt (service_running_result : Bool) (http_get : Except Unit Nat) :
    Except Unit Bool :=
  if service_running_result = false then Except.ok false
  else
    match http_get with
    | Except.error e => Except.error e
    | Except.ok status_code => Except.ok (decide (status_code = 200))

/-- The tenacity policy on health_check: wait_fixed 1, stop_after_attempt 5,
    retry on any exception, retry_error_callback constantly false. Given the
    outcome of each attempt, returns the final value together with the
    number of attempts made and the total time spent waiting between
    attempts (one unit per retry). Never raises: exhaustion yields false. -/
def tenacity_retry (attempt : Nat → Except Unit Bool) : Nat → Nat → Bool × Nat × Nat
  | 0, made => (false, made, 0)
  | Nat.succ remaining, made =>
    match attempt made with
    | Except.ok b => (b, made + 1, 0)
    | Except.error _ =>
      if remaining = 0 then (false, made + 1, 0)
      else
        let r := tenacity_retry attempt remaining (made + 1)
        (r.1, r.2.1, r.2.2 + 1)

/-- workload.py, VmWorkload.health_check: the attempt body under the
    tenacity retry decorator, five attempts starting at attempt 0. The
    probes argument gives, for each attempt, the service_running answer
    and the liveness GET outcome observed at that attempt. -/
def VmWorkload.health_check (probes : Nat → Bool × Except Unit Nat) : Bool × Nat × Nat :=
  tenacity_retry (fun i => health_check_attempt (probes i).1 (probes i).2) 5 0

/-! ### charm.py: the reconcile loop and status collection -/

/-- Calls the charm can place on the workload supervisor during one pass. -/
inductive SupervisorOp where
  | health_check_op
  | configure_op (api_key : String)
  | start_op
deriving DecidableEq

/-- The logical outcome of one reconcile pass, following the spec's
    ReconcileOutcome labels attached to the code's return points: the
    early return behind the healthy guard is Blocked, the early return
    behind a true health_check is NoOp, and completing the
    configure+start tail is Started. An exception escaping the pass is
    the raised outcome, carrying the exception name. -/
inductive ReconcileOutcome where
  | noop
  | started
  | blocked
  | raised (msg : String)
deriving DecidableEq

/-- Charm-visible state: whether the peer relation exists and the
    application-scope databag contents. -/
structure CharmState where
  app_relation : Bool
  app_data : Store
deriving DecidableEq

/-- charm.py: `self.context.app.api_key` read on the current state. -/
def IntegratorCharm.api_key (s : CharmState) : String :=
  AppContext.api_key s.app_relation s.app_data

/-- charm.py, IntegratorCharm.healthy: all of context.ready and
    workload.ready. -/
def IntegratorCharm.healthy : Bool :=
  Context.ready && VmWorkload.ready

/-- charm.py, IntegratorCharm.reconcile. The value that
    secrets.token_urlsafe 64 would produce is the fresh_secret input; the
    value health_check would return in this pass is the health input.
    Returns the resulting state, the pass outcome, and the list of
    supervisor operations that actually execute, in order. On the
    unhealthy path the charm attempts workload.configure with the api_key
    keyword: binding that keyword against VmWorkload.configure's
    parameter list raises TypeError before configure's body runs, the
    exception propagates out of the pass, and start on the next line is
    never reached; only if the binding succeeded would configure and
    start execute. -/
def IntegratorCharm.reconcile (s : CharmState) (fresh_secret : String) (health : Bool) :
    CharmState × ReconcileOutcome × List SupervisorOp :=
  let s1 := if s.app_relation && (IntegratorCharm.api_key s == "") then
      { s with app_data := RelationContext.update s.app_data [(AppContext.API_KEY, fresh_secret)] }
    else s
  if !IntegratorCharm.healthy then (s1, ReconcileOutcome.blocked, [])
  else if health then (s1, ReconcileOutcome.noop, [SupervisorOp.health_check_op])
  else
    match call_with_keywords VmWorkload.configure_param_names ["api_key"] with
    | Except.error msg => (s1, ReconcileOutcome.raised msg, [SupervisorOp.health_check_op])
    | Except.ok _ =>
      (s1, ReconcileOutcome.started,
        [SupervisorOp.health_check_op, SupervisorOp.configure_op (IntegratorCharm.api_key s1),
          SupervisorOp.start_op])

/-- charm.py, IntegratorCharm._on_collect_status: Maintenance when
    health_check is false, else Blocked when workload.ready is false,
    else Active with the served address and port. -/
def IntegratorCharm.collect_status (health workload_ready : Bool)
    (internal_address : String) (port : Nat) : StatusBase :=
  if !health then StatusBase.maintenance "Setting up the integrator..."
  else if !workload_ready then
    StatusBase.blocked
      "Integrator not ready to start, check if all relations are setup successfully."
  else StatusBase.active ("Webhook served at " ++ internal_address ++ ":" ++ toString port)

/-- Length of the text produced by secrets.token_urlsafe nbytes:
    base64url of nbytes random bytes with padding stripped. -/
def token_urlsafe_len (nbytes : Nat) : Nat := (4 * nbytes + 2) / 3

/-! ### rest/app: webhook request and response models (core/models.py) -/

/-- core/models.py, IDTokenClaims. -/
structure IDTokenClaims where
  jti : String
  iss : String
  sub : String
  aud : List String
  nonce : String
  at_hash : String
  acr : String
  amr : Option (List String)
  c_hash : String
  ext : List (String × String)
deriving DecidableEq

/-- core/models.py, IDTokenHeaders. -/
structure IDTokenHeaders where
  extra : List (String × String)
deriving DecidableEq

/-- core/models.py, IDToken. -/
structure IDToken where
  id_token_claims : IDTokenClaims
  headers : IDTokenHeaders
  username : String
  subject : String
deriving DecidableEq

/-- core/models.py, RequestSession. -/
structure RequestSession where
  id_token : IDToken
  extra : List (String × String)
  client_id : String
  consent_challenge : String
  exclude_not_before_claim : Bool
  allowed_top_level_claims : List String
deriving DecidableEq

/-- core/models.py, Request (the `request` object of the POST body). -/
structure Request where
  client_id : String
  granted_scopes : List String
  granted_audience : List String
  grant_types : List String
  payload : List (String × String)
deriving DecidableEq

/-- core/models.py, RequestModel: the full webhook POST body. -/
structure RequestModel where
  session : RequestSession
  request : Request
deriving DecidableEq

/-- core/models.py, TokenClaims namedtuple. -/
structure TokenClaims where
  id_token : List (String × String)
  access_token : List (String × String)
deriving DecidableEq

/-- core/models.py, ResponseSession. -/
structure ResponseSession where
  access_token : List (String × String)
  id_token : List (String × String)
deriving DecidableEq

/-- core/models.py, ResponseModel. -/
structure ResponseModel where
  session : ResponseSession
deriving DecidableEq

/-- services/claims.py, process_claims: both tokens get the fixed role
    claim, regardless of the request. -/
def process_claims (r : RequestModel) : TokenClaims :=
  { id_token := [("dpe:roleClaim", "admin")],
    access_token := [("dpe:roleClaim", "admin")] }

/-- apis/v1/oauth2.py, claims_hook: build the response session from the
    processed claims. -/
def claims_hook (r : RequestModel) : ResponseModel :=
  let claims := process_claims r
  { session := { access_token := claims.access_token, id_token := claims.id_token } }

/-! ### rest/app/core/security.py -/

/-- secrets.compare_digest on equal-typed strings: equality (the
    constant-time aspect has no observable counterpart here). -/
def compare_digest (a b : String) : Bool := a == b

/-- core/security.py, api_key_security: reject with HTTP 401 when the
    X-API-Key header is missing or differs from the environment API_KEY,
    otherwise return the presented value. -/
def api_key_security (api_key_env : String) (api_key_value : Option String) :
    Except Nat String :=
  match api_key_value with
  | none => Except.error 401
  | some v =>
    if !(compare_digest v api_key_env) then Except.error 401
    else Except.ok v

/-- Dependencies attached to the claims_hook route in apis/v1/oauth2.py:
    the route decorator and the handler signature declare none, so the
    list is empty (api_key_security is defined in core/security.py but
    wired to no route). -/
def claims_hook_dependencies : List (Option String → Except Nat Unit) := []

/-- FastAPI dependency resolution for one request: the first dependency
    that raises an HTTPException aborts the request with that code. -/
def run_dependencies (deps : List (Option String → Except Nat Unit))
    (header : Option String) : Except Nat Unit :=
  match deps with
  | [] => Except.ok ()
  | d :: rest =>
    match d header with
    | Except.error code => Except.error code
    | Except.ok _ => run_dependencies rest header

/-- Serving POST /api/v1/oauth2/hook as the app wires it: run the route's
    dependencies against the presented X-API-Key header, then the handler.
    Returns the HTTP status code and, on 200, the response body. -/
def serve_claims_hook (x_api_key_header : Option String) (body : RequestModel) :
    Nat × Option ResponseModel :=
  match run_dependencies claims_hook_dependencies x_api_key_header with
  | Except.error code => (code, none)
  | Except.ok _ => (200, some (claims_hook body))

/-- A concrete well-formed webhook request body. -/
def sample_request : RequestModel :=
  { session :=
    { id_token :=
      { id_token_claims :=
        { jti := "token-1", iss := "https://issuer.example", sub := "user-1",
          aud := ["aud-1"], nonce := "nonce-1", at_hash := "at-1", acr := "0",
          amr := none, c_hash := "c-1", ext := [] },
        headers := { extra := [] },
        username := "alice", subject := "user-1" },
      extra := [], client_id := "client-1", consent_challenge := "challenge-1",
      exclude_not_before_claim := false, allowed_top_level_claims := [] },
    request :=
    { client_id := "client-1", granted_scopes := ["openid"], granted_audience := [],
      grant_types := ["authorization_code"], payload := [] } }

/-- The response body the hook handler produces: both tokens carry
    exactly the fixed role claim. -/
def role_claim_response : ResponseModel :=
  { session :=
    { access_token := [("dpe:roleClaim", "admin")],
      id_token := [("dpe:roleClaim", "admin")] } }

/-- Claim-side reformulation of the vm address rule, written from the
    claim's words rather than the source's loop: the first non-empty value
    among the three unit-scope fields in order, empty-string default. -/
def first_nonempty_spec (d : Store) : String :=
  ((["hostname", "ip", "private-address"].map (fun k => storeGet d k)).find?
    (fun v => v ≠ "")).getD ""

/-- A concrete 86-character secret, the length secrets.token_urlsafe 64
    produces. -/
def sample_secret : String := String.mk (List.replicate 86 'a')

/-! ### Helper lemmas about the store -/

theorem lookup_storeDelete_self (d : Store) (k : String) :
    (storeDelete d k).lookup k = none := by
  unfold storeDelete
  rw [List.lookup_eq_none_iff]
  intro p hp
  rw [List.mem_filter] at hp
  have : p.1 ≠ k := by simpa using hp.2
  simpa using fun he => this (by simp [he])

theorem storeDelete_absent (d : Store) (k : String) (h : d.lookup k = none) :
    storeDelete d k = d := by
  unfold storeDelete
  rw [List.filter_eq_self]
  intro p hp
  rw [List.lookup_eq_none_iff] at h
  have := h p hp
  simp only [bne_iff_ne, ne_eq] at this
  simpa using fun he => this he.symm

theorem lookup_storeSet_self (d : Store) (k v : String) :
    (storeSet d k v).lookup k = some v := by
  unfold storeSet
  by_cases hany : (d.any (fun kv => kv.1 = k)) = true
  · rw [if_pos hany]
    induction d with
    | nil => simp at hany
    | cons a t ih =>
      obtain ⟨a1, a2⟩ := a
      by_cases h : a1 = k
      · subst h
        simp [List.lookup_cons_self]
      · have hhead : (if ((a1, a2) : String × String).1 = k then (k, v) else (a1, a2))
            = (a1, a2) := by
          simp [h]
        rw [List.map_cons, hhead, List.lookup_cons]
        have hbeq : (k == a1) = false := by
          simp only [beq_eq_false_iff_ne]
          exact fun he => h he.symm
        rw [hbeq]
        apply ih
        simp only [List.any_cons, Bool.or_eq_true] at hany
        rcases hany with h1 | h1
        · exact absurd (by simpa using h1) h
        · exact h1
  · rw [if_neg hany]
    have hnone : d.lookup k = none := by
      rw [List.lookup_eq_none_iff]
      intro p hp
      simp only [List.any_eq_true, not_exists, not_and] at hany
      have := hany p hp
      simp only [decide_eq_true_eq] at this
      simpa using fun he => this he.symm
    rw [List.lookup_append, hnone, List.lookup_cons_self]
    rfl

theorem update_single_nonempty (d : Store) (k v : String) (hv : v ≠ "") :
    RelationContext.update d [(k, v)] = storeSet d k v := by
  simp [RelationContext.update, hv]

theorem update_single_empty (d : Store) (k : String) :
    RelationContext.update d [(k, "")] = storeDelete d k := by
  simp [RelationContext.update]

theorem storeGet_update_single (d : Store) (k v : String) (hv : v ≠ "") :
    storeGet (RelationContext.update d [(k, v)]) k = v := by
  rw [update_single_nonempty d k v hv]
  unfold storeGet
  rw [lookup_storeSet_self]
  rfl

/-! ### Helper lemmas about the retry policy -/

theorem tenacity_retry_ok (attempt : Nat → Except Unit Bool) (remaining made : Nat) (b : Bool)
    (h : attempt made = Except.ok b) :
    tenacity_retry attempt (remaining + 1) made = (b, made + 1, 0) := by
  simp [tenacity_retry, h]

theorem tenacity_retry_last_error (attempt : Nat → Except Unit Bool) (made : Nat)
    (h : attempt made = Except.error ()) :
    tenacity_retry attempt 1 made = (false, made + 1, 0) := by
  show tenacity_retry attempt (0 + 1) made = (false, made + 1, 0)
  simp [tenacity_retry, h]

theorem tenacity_retry_step (attempt : Nat → Except Unit Bool) (remaining made : Nat)
    (h : attempt made = Except.error ()) (hrem : remaining ≠ 0) :
    tenacity_retry attempt (remaining + 1) made =
      ((tenacity_retry attempt remaining (made + 1)).1,
        (tenacity_retry attempt remaining (made + 1)).2.1,
        (tenacity_retry attempt remaining (made + 1)).2.2 + 1) := by
  simp [tenacity_retry, h, hrem]

/-! ### Claim theorems -/

/-- C4: health_check never propagates an error: each attempt that raises
    is retried at 1-unit intervals up to 5 attempts; a probe failing its
    first 4 attempts and succeeding on the 5th yields true, and a probe
    failing all attempts yields false after exactly 5 attempts (with 4
    one-unit waits in between). The model VmWorkload.health_check is a
    total function into Bool so exhaustion is absorbed, never raised. -/
theorem health_check_retry_bound (probes : Nat → Bool × Except Unit Nat)
    (hfail : ∀ i < 4, health_check_attempt (probes i).1 (probes i).2 = Except.error ()) :
    (health_check_attempt (probes 4).1 (probes 4).2 = Except.ok true →
      VmWorkload.health_check probes = (true, 5, 4)) ∧
    (health_check_attempt (probes 4).1 (probes 4).2 = Except.error () →
      VmWorkload.health_check probes = (false, 5, 4)) := by
  have step := fun (r made : Nat) (h : made < 4) (hr : r ≠ 0) =>
    tenacity_retry_step (fun i => health_check_attempt (probes i).1 (probes i).2) r made
      (hfail made h) hr
  constructor <;> intro h5 <;> unfold VmWorkload.health_check
  · have e4 : tenacity_retry (fun i => health_check_attempt (probes i).1 (probes i).2) 1 4
        = (true, 5, 0) :=
      tenacity_retry_ok _ 0 4 true h5
    have e3 := step 1 3 (by norm_num) (by norm_num)
    rw [e4] at e3
    have e2 := step 2 2 (by norm_num) (by norm_num)
    rw [show (2 : Nat) + 1 = 3 from rfl] at e2
    rw [e3] at e2
    have e1 := step 3 1 (by norm_num) (by norm_num)
    rw [show (3 : Nat) + 1 = 4 from rfl] at e1
    rw [e2] at e1
    have e0 := step 4 0 (by norm_num) (by norm_num)
    rw [show (4 : Nat) + 1 = 5 from rfl] at e0
    rw [e1] at e0
    simpa using e0
  · have e4 : tenacity_retry (fun i => health_check_attempt (probes i).1 (probes i).2) 1 4
        = (false, 5, 0) :=
      tenacity_retry_last_error _ 4 h5
    have e3 := step 1 3 (by norm_num) (by norm_num)
    rw [e4] at e3
    have e2 := step 2 2 (by norm_num) (by norm_num)
    rw [show (2 : Nat) + 1 = 3 from rfl] at e2
    rw [e3] at e2
    have e1 := step 3 1 (by norm_num) (by norm_num)
    rw [show (3 : Nat) + 1 = 4 from rfl] at e1
    rw [e2] at e1
    have e0 := step 4 0 (by norm_num) (by norm_num)
    rw [show (4 : Nat) + 1 = 5 from rfl] at e0
    rw [e1] at e0
    simpa using e0

/-- Witness for C4: a fake endpoint where the service is running and the
    liveness GET raises for the first 4 attempts and answers 200 on the
    5th; health_check returns true after 5 attempts and 4 unit waits. -/
theorem health_check_retry_bound_witness :
    VmWorkload.health_check
      (fun i => (true, if i < 4 then Except.error () else Except.ok 200)) = (true, 5, 4) :=
  (health_check_retry_bound _ (by intro i hi; interval_cases i <;> rfl)).1 rfl

theorem healthy_true : IntegratorCharm.healthy = true := by
  simp [IntegratorCharm.healthy, Context.ready, WithStatus.ready, Context.status,
    VmWorkload.ready]

theorem reconcile_fst (st : CharmState) (f : String) (hh : Bool) :
    (IntegratorCharm.reconcile st f hh).1 =
      (if st.app_relation && (IntegratorCharm.api_key st == "") then
        { st with app_data := RelationContext.update st.app_data [(AppContext.API_KEY, f)] }
      else st) := by
  unfold IntegratorCharm.reconcile
  rw [healthy_true]
  cases hh <;> simp [call_with_keywords, VmWorkload.configure_param_names]

/-- C5: the shared secret is write-once. From a state with the peer
    relation present and an empty api-key, one reconcile pass stores the
    freshly generated secret, whose length (that of token_urlsafe 64) is
    at least 43; a further reconcile pass from the resulting state leaves
    the state, hence the stored secret, unchanged. -/
theorem api_key_write_once (s : CharmState) (fresh fresh2 : String) (health health2 : Bool)
    (hrel : s.app_relation = true) (hempty : IntegratorCharm.api_key s = "")
    (hlen : fresh.length = token_urlsafe_len 64) :
    43 ≤ (IntegratorCharm.api_key ((IntegratorCharm.reconcile s fresh health).1)).length ∧
    (IntegratorCharm.reconcile ((IntegratorCharm.reconcile s fresh health).1) fresh2 health2).1
      = (IntegratorCharm.reconcile s fresh health).1 := by
  have hfresh : fresh ≠ "" := by
    intro he
    rw [he] at hlen
    simp [token_urlsafe_len] at hlen
  have hguard : (s.app_relation && (IntegratorCharm.api_key s == "")) = true := by
    rw [hrel, hempty]
    rfl
  have hs1 : (IntegratorCharm.reconcile s fresh health).1 =
      { s with app_data := RelationContext.update s.app_data [(AppContext.API_KEY, fresh)] } := by
    rw [reconcile_fst, if_pos hguard]
  have hkey1 : IntegratorCharm.api_key ((IntegratorCharm.reconcile s fresh health).1) = fresh := by
    rw [hs1]
    unfold IntegratorCharm.api_key AppContext.api_key
    simp only [hrel, Bool.not_true, Bool.false_eq_true, if_false]
    exact storeGet_update_single _ _ _ hfresh
  constructor
  · rw [hkey1, hlen]
    norm_num [token_urlsafe_len]
  · rw [reconcile_fst, if_neg]
    rw [hkey1]
    simp [beq_eq_false_iff_ne, hfresh]

/-- Witness for C5 at a concrete initial state and 86-character secret. -/
theorem api_key_write_once_witness :
    43 ≤ (IntegratorCharm.api_key ((IntegratorCharm.reconcile ⟨true, []⟩ sample_secret true).1)).length ∧
    (IntegratorCharm.reconcile ((IntegratorCharm.reconcile ⟨true, []⟩ sample_secret true).1) "z" false).1
      = (IntegratorCharm.reconcile ⟨true, []⟩ sample_secret true).1 :=
  api_key_write_once ⟨true, []⟩ sample_secret "z" true false rfl rfl (by decide)

/-- C3 counterexample: in the state with no peer relation at all, a
    reconcile pass does not produce the Blocked outcome and does place a
    supervisor call (health_check), contradicting the claim that the
    outcome is Blocked with no supervisor operations. -/
theorem reconcile_no_relation_counterexample :
    (IntegratorCharm.reconcile ⟨false, []⟩ "w" true).2.1 ≠ ReconcileOutcome.blocked ∧
    (IntegratorCharm.reconcile ⟨false, []⟩ "w" true).2.2 ≠ [] := by
  decide

/-- C3 amended: when the relation scope does not exist, reconcile leaves
    the state unchanged (no secret provisioning), but the pass is not
    Blocked and a supervisor operation is still invoked: context.ready
    and workload.ready are unconditionally true, so the guard never
    fires and health_check is called in every such pass. -/
theorem reconcile_no_relation_behavior (s : CharmState) (fresh : String) (health : Bool)
    (h : s.app_relation = false) :
    (IntegratorCharm.reconcile s fresh health).1 = s ∧
    (IntegratorCharm.reconcile s fresh health).2.1 ≠ ReconcileOutcome.blocked ∧
    SupervisorOp.health_check_op ∈ (IntegratorCharm.reconcile s fresh health).2.2 := by
  unfold IntegratorCharm.reconcile
  rw [healthy_true]
  simp only [h, Bool.false_and, if_false, Bool.not_true, Bool.false_eq_true]
  cases health <;> simp [call_with_keywords, VmWorkload.configure_param_names]

/-- Witness for C3's amended statement at a concrete relation-less state. -/
theorem reconcile_no_relation_behavior_witness :
    (IntegratorCharm.reconcile ⟨false, []⟩ "w" false).1 = ⟨false, []⟩ ∧
    (IntegratorCharm.reconcile ⟨false, []⟩ "w" false).2.1 ≠ ReconcileOutcome.blocked ∧
    SupervisorOp.health_check_op ∈ (IntegratorCharm.reconcile ⟨false, []⟩ "w" false).2.2 :=
  reconcile_no_relation_behavior ⟨false, []⟩ "w" false rfl

/-- C1: the hook route is served without authentication. The claims_hook
    route in apis/v1/oauth2.py attaches no dependency, so a POST with a
    valid body and no X-API-Key header is answered 200 with the role
    claims, not 401 — even though api_key_security (defined in
    core/security.py but wired to no route) rejects the missing header. -/
theorem hook_unauthenticated_returns_200 :
    serve_claims_hook none sample_request = (200, some role_claim_response) ∧
    api_key_security "s3cret" none = Except.error 401 ∧
    (200 : Nat) ≠ 401 := by
  refine ⟨rfl, rfl, by norm_num⟩

/-- C2: the supervisor cannot be configured with the secret. The only
    parameters of VmWorkload.configure are none beyond self, so the call
    configure api_key := ... placed by IntegratorCharm.reconcile raises
    TypeError under Python keyword-call semantics; moreover the materialized
    service descriptor's environment holds only the listening port, never
    the secret. -/
theorem configure_rejects_api_key_keyword :
    call_with_keywords VmWorkload.configure_param_names ["api_key"] =
      Except.error "TypeError" ∧
    (VmWorkload.systemd_config_lines "/path/to/charm" 8080).filter
      (fun l => l.data.take 12 = "Environment=".data) = ["Environment=PORT=8080"] := by
  constructor
  · rfl
  · decide

/-- C6: in a reconcile pass in which health_check returns true, neither
    configure nor start appears among the supervisor calls of that pass. -/
theorem healthy_pass_never_restarts (s : CharmState) (fresh api_key_arg : String) :
    SupervisorOp.configure_op api_key_arg ∉ (IntegratorCharm.reconcile s fresh true).2.2 ∧
    SupervisorOp.start_op ∉ (IntegratorCharm.reconcile s fresh true).2.2 := by
  unfold IntegratorCharm.reconcile
  rw [healthy_true]
  simp

/-- C7: the status projection is Maintenance when health_check is false,
    Blocked when the workload readiness dependency is unsatisfied, and
    otherwise Active carrying the served address and port; being a pure
    function of the current predicates, it is recomputed on each query. -/
theorem collect_status_projection (workload_ready : Bool) (addr : String) (port : Nat) :
    IntegratorCharm.collect_status false workload_ready addr port =
      StatusBase.maintenance "Setting up the integrator..." ∧
    IntegratorCharm.collect_status true false addr port =
      StatusBase.blocked
        "Integrator not ready to start, check if all relations are setup successfully." ∧
    IntegratorCharm.collect_status true true addr port =
      StatusBase.active ("Webhook served at " ++ addr ++ ":" ++ toString port) := by
  refine ⟨rfl, rfl, rfl⟩

/-- C8: through RelationContext.update, writing an empty-string value for
    a field removes it from the store, and the removal is idempotent: on a
    store where the field is absent it succeeds and leaves the store
    unchanged. -/
theorem update_empty_string_deletes (d : Store) (k : String) :
    (RelationContext.update d [(k, "")]).lookup k = none ∧
    (d.lookup k = none → RelationContext.update d [(k, "")] = d) := by
  rw [update_single_empty]
  exact ⟨lookup_storeDelete_self d k, fun h => storeDelete_absent d k h⟩

/-- Witness for C8 on a concrete store without the field. -/
theorem update_empty_string_deletes_witness :
    (RelationContext.update [("other", "v")] [("api-key", "")]).lookup "api-key" = none ∧
    RelationContext.update [("other", "v")] [("api-key", "")] = [("other", "v")] :=
  ⟨(update_empty_string_deletes [("other", "v")] "api-key").1,
    (update_empty_string_deletes [("other", "v")] "api-key").2 rfl⟩

/-- C9: process_claims is a constant function: any two webhook requests
    produce identical claims, both tokens carrying exactly the fixed role
    claim, so the hook's 200 body does not depend on any request field. -/
theorem process_claims_constant (r1 r2 : RequestModel) :
    process_claims r1 = process_claims r2 ∧
    claims_hook r1 = claims_hook r2 ∧
    (claims_hook r1).session.access_token = [("dpe:roleClaim", "admin")] ∧
    (claims_hook r1).session.id_token = [("dpe:roleClaim", "admin")] := by
  refine ⟨rfl, rfl, rfl, rfl⟩

/-- C10: on the vm substrate, internal_address is the first non-empty
    value among hostname, ip, private-address in that order, and empty
    when all three are absent or empty. -/
theorem internal_address_vm (d : Store) (unit_name : String) :
    UnitContext.internal_address Substrate.vm d unit_name = first_nonempty_spec d ∧
    (storeGet d "hostname" = "" → storeGet d "ip" = "" →
      storeGet d "private-address" = "" →
      UnitContext.internal_address Substrate.vm d unit_name = "") := by
  constructor
  · by_cases h1 : storeGet d "hostname" = "" <;>
      by_cases h2 : storeGet d "ip" = "" <;>
      by_cases h3 : storeGet d "private-address" = "" <;>
      simp [UnitContext.internal_address, first_nonempty_addr, first_nonempty_spec,
        List.find?, h1, h2, h3]
  · intro h1 h2 h3
    simp [UnitContext.internal_address, first_nonempty_addr, h1, h2, h3]

/-- Witness for C10 on the empty unit databag. -/
theorem internal_address_vm_witness :
    UnitContext.internal_address Substrate.vm [] "integrator/0" = first_nonempty_spec [] ∧
    UnitContext.internal_address Substrate.vm [] "integrator/0" = "" :=
  ⟨(internal_address_vm [] "integrator/0").1,
    (internal_address_vm [] "integrator/0").2 rfl rfl rfl⟩

end OAuthIntegrator
